import Mathlib

/-!
Verification development for the hybrid PDF-chunking pipeline
(document analyzer, structural chunker, semantic/agentic chunker,
chunking coordinator).

Python strings are embedded as `List Char` (`PyStr`): Python's `len` is the
number of code points, which matches `List.length`.  Python floats are
embedded as `ℚ`; the constants involved (0.3, 0.8, 0.95, ...) and the
comparisons performed by the code do not hit float-rounding boundaries for
realistic page counts, so exact rational arithmetic is a faithful model
(noted again at each use site).  Wall-clock fields
(`processing_time_seconds`, metric timestamps) and logging are not modelled.
I/O boundaries (PyMuPDF page extraction, the OCR engine, the generative
agent call) are modelled as explicit inputs: an `Except` value describes
whether the external call raised or what it returned.
-/

/-- Python `str` as a list of code points. -/
abbrev PyStr := List Char

/-- Convert a Lean string literal to the `PyStr` embedding. -/
def pystr (s : String) : PyStr := s.data

/-- The whitespace characters recognised by Python's `str.split()` /
`str.strip()` for ASCII text (exotic Unicode whitespace is not used by the
repository's string constants). -/
def isPySpace (c : Char) : Bool :=
  c == ' ' || c == '\t' || c == '\n' || c == '\r' || c == '\x0b' || c == '\x0c'

/-- Python `str.strip()`: drop whitespace from both ends. -/
def pyStrip (s : PyStr) : PyStr :=
  ((s.dropWhile isPySpace).reverse.dropWhile isPySpace).reverse

/-- Helper for `pySplitWs`: accumulate the current word (reversed) while
scanning. -/
def wordsAux : PyStr → PyStr → List PyStr
  | [], acc => if acc = [] then [] else [acc.reverse]
  | c :: cs, acc =>
    if isPySpace c then
      if acc = [] then wordsAux cs [] else acc.reverse :: wordsAux cs []
    else wordsAux cs (c :: acc)

/-- Python `str.split()` with no argument: split on whitespace runs,
discarding empty pieces. -/
def pySplitWs (s : PyStr) : List PyStr := wordsAux s []

/-- Python `str.split(sep)` for a single-character separator: split at every
occurrence, keeping empty pieces. -/
def pySplitChar (sep : Char) : PyStr → List PyStr
  | [] => [[]]
  | c :: cs =>
    if c = sep then [] :: pySplitChar sep cs
    else
      match pySplitChar sep cs with
      | [] => [[c]]
      | p :: ps => (c :: p) :: ps

/-- Python `' '.join(words)`. -/
def joinSpace : List PyStr → PyStr
  | [] => []
  | [w] => w
  | w :: ws => w ++ ' ' :: joinSpace ws

/-- Python `word.endswith('.')`. -/
def endsWithDot (w : PyStr) : Bool := w.getLast? == some '.'

/-! ## Document analyzer (`src/services/document_analyzer.py`) -/

/-- `DocumentType` enum. -/
inductive DocumentType where
  | native
  | scanned
  | mixed
  deriving DecidableEq, Repr

/-- `ProcessingPath` enum. -/
inductive ProcessingPath where
  | structural
  | ocr_agentic
  deriving DecidableEq, Repr

/-- `PageAnalysis` pydantic model: the per-page analysis record consumed by
`_classify_document`.  (The per-page heuristics `_has_meaningful_text` /
`_estimate_readability` run upstream of every claim considered here, so their
outputs are inputs of the embedding.) -/
structure PageAnalysis where
  page_number : Nat
  has_text : Bool
  text_density : ℚ
  text_length : Nat
  estimated_readability : ℚ
  requires_ocr : Bool
  deriving DecidableEq, Repr

/-- The information content of the human-readable `decision_factors` strings
(`f"..."` percent formatting of the embedded numbers is elided). -/
inductive DecisionFactor where
  | textPages (text_page_ratio : ℚ)
  | ocrPages (ocr_page_ratio : ℚ)
  | mixedDocument (text_page_ratio ocr_page_ratio : ℚ)
  | avgReadability (value : ℚ)
  | avgTextDensity (value : ℚ)
  | analysisFailed (error : PyStr)
  | defaultingToOcr
  deriving DecidableEq, Repr

/-- `DocumentAnalysisResult` pydantic model. -/
structure DocumentAnalysisResult where
  document_type : DocumentType
  processing_path : ProcessingPath
  confidence : ℚ
  total_pages : Nat
  pages_with_text : Nat
  pages_requiring_ocr : Nat
  page_analyses : List PageAnalysis
  analysis_method : String
  decision_factors : List DecisionFactor
  deriving DecidableEq, Repr

/-- Python `round(x, 3)`.  (Python uses round-half-to-even on binary floats;
no value produced by the classifier sits at a half-way point, so ordinary
rounding on `ℚ` is faithful here.) -/
def roundTo3 (q : ℚ) : ℚ := (round (1000 * q) : ℤ) / 1000

/-- `self.native_page_threshold = 0.8`. -/
def nativePageThreshold : ℚ := 4 / 5

/-- `self.mixed_threshold = 0.3`. -/
def mixedThreshold : ℚ := 3 / 10

/-- `text_page_ratio = pages_with_text / len(page_analyses) if page_analyses
else 0`. -/
def textPageRatio (page_analyses : List PageAnalysis) : ℚ :=
  if page_analyses.length = 0 then 0
  else (page_analyses.countP (·.has_text) : ℚ) / page_analyses.length

/-- `ocr_page_ratio = pages_requiring_ocr / len(page_analyses) if
page_analyses else 1`. -/
def ocrPageRatio (page_analyses : List PageAnalysis) : ℚ :=
  if page_analyses.length = 0 then 1
  else (page_analyses.countP (·.requires_ocr) : ℚ) / page_analyses.length

/-- The outcome of the `if/elif/else` classification block of
`_classify_document`, before the readability-based confidence adjustment. -/
structure CoreClassification where
  doc_type : DocumentType
  path : ProcessingPath
  confidence : ℚ
  factor : DecisionFactor
  deriving DecidableEq, Repr

/-- The `if text_page_ratio >= 0.8 / elif <= 0.3 / else` block of
`_classify_document` (float comparisons are exact at these rationals for the
page counts the analyzer produces). -/
def classifyCore (text_page_ratio ocr_page_ratio : ℚ) : CoreClassification :=
  if nativePageThreshold ≤ text_page_ratio then
    { doc_type := .native, path := .structural,
      confidence := min (19/20) (1/2 + text_page_ratio * (1/2)),
      factor := .textPages text_page_ratio }
  else if text_page_ratio ≤ mixedThreshold then
    { doc_type := .scanned, path := .ocr_agentic,
      confidence := min (19/20) (1/2 + ocr_page_ratio * (1/2)),
      factor := .ocrPages ocr_page_ratio }
  else
    { doc_type := .mixed, path := .ocr_agentic, confidence := 7/10,
      factor := .mixedDocument text_page_ratio ocr_page_ratio }

/-- `DocumentAnalyzer._classify_document`.  The extrapolated
`pages_with_text` uses Python `int(...)` truncation of a float division whose
operands are small integers, which coincides with `Nat` division. -/
def classifyDocument (page_analyses : List PageAnalysis) (total_pages : Nat) :
    DocumentAnalysisResult :=
  let pages_with_text := page_analyses.countP (·.has_text)
  let n := page_analyses.length
  let core := classifyCore (textPageRatio page_analyses) (ocrPageRatio page_analyses)
  let adjusted :=
    if n = 0 then (core.confidence, ([] : List DecisionFactor))
    else
      let avg_readability := (page_analyses.map (·.estimated_readability)).sum / n
      let avg_text_density := (page_analyses.map (·.text_density)).sum / n
      let c :=
        if 4/5 < avg_readability then min (49/50) (core.confidence + 1/10)
        else if avg_readability < 3/10 then max (1/2) (core.confidence - 1/10)
        else core.confidence
      (c, [DecisionFactor.avgReadability avg_readability,
           DecisionFactor.avgTextDensity avg_text_density])
  let estimated_text_pages := if n = 0 then 0 else pages_with_text * total_pages / n
  { document_type := core.doc_type
    processing_path := core.path
    confidence := roundTo3 adjusted.1
    total_pages := total_pages
    pages_with_text := estimated_text_pages
    pages_requiring_ocr := total_pages - estimated_text_pages
    page_analyses := page_analyses
    analysis_method := if n < total_pages then "sampling" else "complete"
    decision_factors := core.factor :: adjusted.2 }

/-- `DocumentAnalyzer._create_fallback_result`. -/
def createFallbackResult (error_message : PyStr) : DocumentAnalysisResult :=
  { document_type := .scanned
    processing_path := .ocr_agentic
    confidence := 3/10
    total_pages := 1
    pages_with_text := 0
    pages_requiring_ocr := 1
    page_analyses := []
    analysis_method := "fallback"
    decision_factors := [.analysisFailed error_message, .defaultingToOcr] }

/-- `DocumentAnalyzer.analyze_pdf_type`: the PDF open/sample/per-page step is
an external effect, embedded as an `Except` input carrying either the raised
exception text or the sampled page analyses with the document's page count.
The `try/except` makes the function total: any raised error yields the
fallback classification. -/
def analyzePdfType (input : Except PyStr (List PageAnalysis × Nat)) :
    DocumentAnalysisResult :=
  match input with
  | .error e => createFallbackResult e
  | .ok (page_analyses, total_pages) => classifyDocument page_analyses total_pages

/-! ## Structural chunker (`src/services/structural_chunker.py`) -/

/-- `StructuralChunkData` pydantic model. -/
structure StructuralChunkData where
  content : PyStr
  page_number : Option Nat := none
  chapter_title : Option PyStr := none
  section_title : Option PyStr := none
  chunk_size : Nat
  overlap_size : Option Nat := none
  deriving DecidableEq, Repr

/-- `StructuralChunkingResult` (the `processing_metadata` dict of timings and
counts is not modelled). -/
structure StructuralChunkingResult where
  parent_chunks : List StructuralChunkData
  child_chunks : List (List StructuralChunkData)
  deriving DecidableEq, Repr

/-- The dict returned by `StructuralChunker.validate_chunks`.  The
zero-chunks early return carries only `valid`/`reason`; the numeric fields
are zero / `none` in that case. -/
structure ChunkValidation where
  valid : Bool
  reason : Option String := none
  total_chunks : Nat := 0
  average_size : ℚ := 0
  min_size : Nat := 0
  max_size : Nat := 0
  chunks_too_small : Nat := 0
  chunks_too_large : Nat := 0
  size_distribution : Option String := none
  deriving DecidableEq, Repr

/-- `StructuralChunker.validate_chunks`.  The float comparisons
`too_small + too_large > len * 0.3` and `... < len * 0.2` are exact at these
rationals for any list length below 10^13, so they are modelled as
`10 * count > 3 * len` and `10 * count < 2 * len`. -/
def validateChunks (parent_chunks : List StructuralChunkData) : ChunkValidation :=
  if parent_chunks = [] then
    { valid := false, reason := some "no_chunks_created" }
  else
    let sizes : List Nat := parent_chunks.map (·.chunk_size)
    let avg_size : ℚ := (sizes.sum : ℚ) / sizes.length
    let too_small := (sizes.filter (fun s => s < 100)).length
    let too_large := (sizes.filter (fun s => s > 2000)).length
    let invalid := 10 * (too_small + too_large) > 3 * sizes.length
    { valid := !invalid
      reason := if invalid then some "poor_size_distribution" else none
      total_chunks := parent_chunks.length
      average_size := avg_size
      min_size := sizes.foldr Nat.min (sizes.headD 0)
      max_size := sizes.foldr Nat.max 0
      chunks_too_small := too_small
      chunks_too_large := too_large
      size_distribution :=
        some (if 10 * (too_small + too_large) < 2 * sizes.length then "good" else "poor") }

/-! ## OCR results and the semantic (agentic) chunker
(`src/services/ocr_service.py`, `src/services/agentic_chunker.py`) -/

/-- `OCRResult` pydantic model (the `preprocessing_applied` flag dict and
`raw_confidence_data` feed only the unmodelled metrics surface). -/
structure OCRResult where
  text : PyStr
  confidence : ℚ
  language_detected : String
  page_number : Nat
  processing_time_ms : Nat := 0
  deriving DecidableEq, Repr

/-- Agentic `ChildChunk` pydantic model. -/
structure AgChildChunk where
  content : PyStr
  sequence_number : Nat
  semantic_role : String
  deriving DecidableEq, Repr

/-- Agentic `ParentChunk` pydantic model. -/
structure AgParentChunk where
  content : PyStr
  thematic_summary : PyStr
  confidence_score : ℚ
  child_chunks : List AgChildChunk
  deriving DecidableEq, Repr

/-- The `processing_metadata` dict keys of `ChunkingResult` that the
pipeline branches on or that the claims mention (timestamps, model name,
attempt counts and the derived quality-assessment summary are bookkeeping
only). -/
structure ChunkMeta where
  status : Option String := none
  reason : Option PyStr := none
  method : Option String := none
  coverage_ratio : Option ℚ := none
  deriving DecidableEq, Repr

/-- `ChunkingResult` pydantic model. -/
structure ChunkingResult where
  parent_chunks : List AgParentChunk
  processing_metadata : ChunkMeta := {}
  deriving DecidableEq, Repr

/-- Ordering of OCR results by page number, as used by
`sorted(ocr_results, key=lambda x: x.page_number)`. -/
def pageLe (a b : OCRResult) : Prop := a.page_number ≤ b.page_number

instance : DecidableRel pageLe := fun a b => Nat.decLe a.page_number b.page_number

instance : IsTotal OCRResult pageLe := ⟨fun a b => Nat.le_total a.page_number b.page_number⟩

instance : IsTrans OCRResult pageLe := ⟨fun _ _ _ => Nat.le_trans⟩

/-- Strict page ordering, used to compare sorted lists. -/
def pageLt (a b : OCRResult) : Prop := a.page_number < b.page_number

instance : IsAntisymm OCRResult pageLt :=
  ⟨fun _ _ h1 h2 => absurd h1 (Nat.lt_asymm h2)⟩

/-- The `f"\n--- Page {n} ---\n"` separator. -/
def pageSep (n : Nat) : PyStr := pystr "\n--- Page " ++ pystr (toString n) ++ pystr " ---\n"

/-- `AgenticChunker._combine_ocr_results`: pages sorted by page number
(Python's `sorted` is stable; `List.insertionSort` with `pageLe` is the same
stable sort), pages whose stripped text is empty skipped, a page separator
inserted for each kept page when the input list has more than one element,
`"\n\n"` appended after each page, and the concatenation stripped. -/
def combineOcrResults (ocr_results : List OCRResult) : PyStr :=
  pyStrip (((List.insertionSort pageLe ocr_results).map (fun r =>
    if pyStrip r.text = [] then []
    else
      (if ocr_results.length > 1 then pageSep r.page_number else [])
        ++ r.text ++ pystr "\n\n")).flatten)

/-- `self.target_parent_chunk_size = 500` (compared against the character
length of the accumulated text in `_create_simple_fallback_chunks`). -/
def targetParentChunkSize : Nat := 500

/-- `self.max_child_chunks_per_parent = 10`. -/
def maxChildChunksPerParent : Nat := 10

/-- `AgenticChunker._create_empty_result`. -/
def createEmptyResult (reason : PyStr) : ChunkingResult :=
  { parent_chunks := []
    processing_metadata := { status := some "empty", reason := some reason } }

/-- The sentence-level child chunks built inside
`_create_simple_fallback_chunks`: split on `'.'`, strip, drop empties, cap at
`max_child_chunks_per_parent`, re-append the period. -/
def fallbackChildren (chunk_text : PyStr) : List AgChildChunk :=
  let sentences := ((pySplitChar '.' chunk_text).map pyStrip).filter (· ≠ [])
  (sentences.take maxChildChunksPerParent).enum.map (fun p =>
    { content := if endsWithDot p.2 then p.2 else p.2 ++ ['.']
      sequence_number := p.1 + 1
      semantic_role := "main_point" })

/-- One flushed parent chunk of the simple fallback splitter
(`confidence_score=0.6`, summary `"Content section {len(chunks)+1}"`). -/
def fallbackLoopChunk (chunks_so_far : Nat) (current_text : PyStr) : AgParentChunk :=
  { content := pyStrip current_text
    thematic_summary := pystr "Content section " ++ pystr (toString (chunks_so_far + 1))
    confidence_score := 3/5
    child_chunks := fallbackChildren (pyStrip current_text) }

/-- The word-accumulation loop of `_create_simple_fallback_chunks`: append
the word, and flush a chunk when the joined text reaches the target size or
the word ends in a period, provided the joined text is at least 100
characters.  Returns the flushed chunks and the remaining words. -/
def fallbackLoop : List PyStr → List PyStr → List AgParentChunk →
    List AgParentChunk × List PyStr
  | [], cur, chunks => (chunks, cur)
  | w :: ws, cur, chunks =>
    if (targetParentChunkSize ≤ (joinSpace (cur ++ [w])).length ∨ endsWithDot w = true)
        ∧ 100 ≤ (joinSpace (cur ++ [w])).length then
      fallbackLoop ws []
        (chunks ++ [fallbackLoopChunk chunks.length (joinSpace (cur ++ [w]))])
    else fallbackLoop ws (cur ++ [w]) chunks

/-- The trailing chunk of `_create_simple_fallback_chunks`
(`confidence_score=0.5`, single `"conclusion"` child). -/
def fallbackFinalChunk (remaining_text : PyStr) : AgParentChunk :=
  { content := remaining_text
    thematic_summary := pystr "Final content section"
    confidence_score := 1/2
    child_chunks := [{ content := remaining_text, sequence_number := 1,
                       semantic_role := "conclusion" }] }

/-- `AgenticChunker._create_simple_fallback_chunks`. -/
def createSimpleFallbackChunks (text : PyStr) : ChunkingResult :=
  let words := pySplitWs text
  if words = [] then createEmptyResult (pystr "No words found")
  else
    let r := fallbackLoop words [] []
    let remaining_text := pyStrip (joinSpace r.2)
    let chunks :=
      if r.2 ≠ [] ∧ 50 ≤ remaining_text.length then
        r.1 ++ [fallbackFinalChunk remaining_text]
      else r.1
    { parent_chunks := chunks
      processing_metadata := { status := some "fallback", method := some "simple_splitting" } }

/-- `AgenticChunker._create_fallback_result` (re-combines the OCR text and
runs the simple splitter; empty combined text yields the empty result). -/
def createAgenticFallbackResult (ocr_results : List OCRResult) (error : PyStr) :
    ChunkingResult :=
  let combined_text := combineOcrResults ocr_results
  if combined_text = [] then createEmptyResult (pystr "Fallback failed: " ++ error)
  else createSimpleFallbackChunks combined_text

/-- `AgenticChunker._validate_and_enhance_result`: empty agent output falls
back to the simple splitter, otherwise the metadata is enriched with the
coverage ratio (the other enrichment keys are bookkeeping). -/
def validateAndEnhanceResult (result : ChunkingResult) (original_text : PyStr) :
    ChunkingResult :=
  if result.parent_chunks = [] then createSimpleFallbackChunks original_text
  else
    let total_chunk_length := (result.parent_chunks.map (·.content.length)).sum
    let coverage_ratio : ℚ :=
      if original_text.length = 0 then 0
      else (total_chunk_length : ℚ) / original_text.length
    { result with processing_metadata :=
        { result.processing_metadata with coverage_ratio := some coverage_ratio } }

/-- `AgenticChunker.chunk_ocr_content`.  The generative-agent call (with its
retry/backoff loop) is external and is embedded as an `Except` input: either
the typed `ChunkingResult` the agent produced or the exception text after all
retries failed.  The surrounding `try/except` makes the function total. -/
def chunkOcrContent (agent_outcome : Except PyStr ChunkingResult)
    (ocr_results : List OCRResult) : ChunkingResult :=
  let combined_text := combineOcrResults ocr_results
  if pyStrip combined_text = [] then createEmptyResult (pystr "No meaningful text content")
  else
    match agent_outcome with
    | .ok r => validateAndEnhanceResult r combined_text
    | .error e => createAgenticFallbackResult ocr_results e

/-! ## Chunking coordinator (`src/services/chunking_service.py`) -/

/-- One database-format chunk row.  The Python code builds dicts with many
bookkeeping keys (`embedding_model`, `textbook_id`, per-chunk
`processing_metadata`, ...); the fields every claim inspects are the content
and its size. -/
structure DbChunk where
  content : PyStr
  chunk_size : Nat
  deriving DecidableEq, Repr

/-- The `metadata` dict keys of `HybridChunkingResult` that the claims
mention (`method` is set on every construction; `error`/`status` only by the
terminal fallback result). -/
structure HybridMeta where
  method : String
  error : Option PyStr := none
  status : Option String := none
  deriving DecidableEq, Repr

/-- `HybridChunkingResult` pydantic model.  `document_analysis` and
`processing_time_seconds` are required fields with no default; the
success-path constructions at chunking_service.py:174 and
chunking_service.py:245 omit both, so pydantic rejects them and only
`_create_fallback_result` ever constructs this record successfully (see
`structuralPathCore`/`ocrAgenticPathCore`).  `processing_time_seconds` is
wall-clock and not modelled; the optional `ocr_metrics`/`agentic_metrics`
dictionaries belong to the unmodelled observability surface. -/
structure HybridChunkingResult where
  document_analysis : DocumentAnalysisResult
  processing_path_used : ProcessingPath
  fallback_occurred : Bool := false
  fallback_reason : Option PyStr := none
  parent_chunks : List DbChunk
  child_chunks : List DbChunk
  quality_score : ℚ
  confidence_score : ℚ
  metadata : HybridMeta
  deriving DecidableEq, Repr

/-- The external collaborators of one `ChunkingService.process_document`
invocation, plus the service configuration: what the document analyzer's
page sampling produced (or raised), what
`StructuralChunker.process_document` returned (or raised), what
`OCRService.extract_text_from_pdf` returned (or raised), what the
generative-agent call returned (or raised after its retries), and the
`enable_fallback` flag (`True` in `__init__`). -/
structure CoordEnv where
  analyzerInput : Except PyStr (List PageAnalysis × Nat)
  structuralResult : Except PyStr StructuralChunkingResult
  ocrResult : Except PyStr (List OCRResult)
  agentOutcome : Except PyStr ChunkingResult
  enable_fallback : Bool := true

/-- `ChunkingService._calculate_quality_score`: 0.4 · OCR quality
+ 0.4 · mean chunk confidence + 0.2 if the chunks carry more than 100
characters; 0.3 when no component applies. -/
def calculateQualityScore (ocr_results : List OCRResult)
    (chunking_result : ChunkingResult) : ℚ :=
  let ocr_scores : List ℚ :=
    if ocr_results ≠ [] then
      let avg_ocr_confidence := (ocr_results.map (·.confidence)).sum / ocr_results.length
      [min 1 (avg_ocr_confidence / 100) * (2/5)]
    else []
  let chunk_scores : List ℚ :=
    if chunking_result.parent_chunks ≠ [] then
      let avg_chunk_confidence :=
        (chunking_result.parent_chunks.map (·.confidence_score)).sum
          / chunking_result.parent_chunks.length
      let total_content_length :=
        (chunking_result.parent_chunks.map (·.content.length)).sum
      [avg_chunk_confidence * (2/5)]
        ++ (if total_content_length > 100 then [(1/5 : ℚ)] else [])
    else []
  let scores := ocr_scores ++ chunk_scores
  if scores = [] then 3/10 else scores.sum

/-- The text of the pydantic `ValidationError` raised when a
`HybridChunkingResult` is constructed without its required
`document_analysis` and `processing_time_seconds` fields (the full pydantic
message lists the missing fields; only its non-emptiness matters here). -/
def validationErrorMsg : PyStr := pystr "2 validation errors for HybridChunkingResult"

/-- `ChunkingService._process_structural_path`, body of the `try`.  When the
structural chunker raises, its error propagates to the handler.  Otherwise
the conversion loop runs first: it indexes
`structural_result['child_chunks'][i]` for each parent index `i`, so a
child-group list shorter than the parent list raises `IndexError`.  If the
loop completes, the `HybridChunkingResult(...)` construction at
chunking_service.py:174 omits the required pydantic fields
`document_analysis` and `processing_time_seconds` and raises
`ValidationError`.  Every arm of the `try` body therefore raises: the
structural path never returns successfully. -/
def structuralPathCore (env : CoordEnv) (_document_analysis : DocumentAnalysisResult) :
    Except PyStr HybridChunkingResult :=
  match env.structuralResult with
  | .error e => .error e
  | .ok sr =>
    if sr.parent_chunks.length ≤ sr.child_chunks.length then
      .error validationErrorMsg
    else .error (pystr "list index out of range")

/-- `ChunkingService._process_ocr_agentic_path`, body of the `try`.  OCR
extraction raising, or yielding no pages, raises to the handler.  Otherwise
the agentic chunking, the database-format conversion, the metrics, the
quality score and `min(document_analysis.confidence, quality_score)` are
all computed (chunking_service.py:220-252, kept below as dead bindings),
and then the `HybridChunkingResult(...)` construction at
chunking_service.py:245 omits the required pydantic fields
`document_analysis` and `processing_time_seconds` and raises
`ValidationError`.  Every arm of the `try` body therefore raises: the
OCR+agentic path never returns successfully. -/
def ocrAgenticPathCore (env : CoordEnv) (_document_analysis : DocumentAnalysisResult) :
    Except PyStr HybridChunkingResult :=
  match env.ocrResult with
  | .error e => .error e
  | .ok [] => .error (pystr "OCR processing produced no results")
  | .ok ocr_results =>
    let _chunking_result := chunkOcrContent env.agentOutcome ocr_results
    let _quality_score := calculateQualityScore ocr_results _chunking_result
    .error validationErrorMsg

/-- Dispatch to the matching path helper. -/
def pathCore (path : ProcessingPath) (env : CoordEnv)
    (document_analysis : DocumentAnalysisResult) : Except PyStr HybridChunkingResult :=
  match path with
  | .structural => structuralPathCore env document_analysis
  | .ocr_agentic => ocrAgenticPathCore env document_analysis

/-- The alternate path used for fallback. -/
def otherPath : ProcessingPath → ProcessingPath
  | .structural => .ocr_agentic
  | .ocr_agentic => .structural

/-- The `fallback_reason` prefix each `except` handler prepends. -/
def failMsgOf : ProcessingPath → PyStr
  | .structural => pystr "Structural processing failed: "
  | .ocr_agentic => pystr "OCR+Agentic processing failed: "

/-- Python's `RecursionError` message, raised when the mutual
structural/OCR fallback recursion exhausts the interpreter stack. -/
def recursionErrorMsg : PyStr := pystr "maximum recursion depth exceeded"

/-- The mutual recursion between `_process_structural_path` and
`_process_ocr_agentic_path`: on failure of the chosen path, if
`enable_fallback` the *other* path runs and its result is marked
`fallback_occurred=True` with the triggering error as `fallback_reason`;
exceptions raised inside the `except` handler propagate.  Python bounds the
recursion by the interpreter stack, modelled by the `fuel` argument; at
depth exhaustion a `RecursionError` propagates to `process_document`. -/
def processPath (env : CoordEnv) (document_analysis : DocumentAnalysisResult) :
    Nat → ProcessingPath → Except PyStr HybridChunkingResult
  | 0, _ => .error recursionErrorMsg
  | fuel + 1, path =>
    match pathCore path env document_analysis with
    | .ok r => .ok r
    | .error e =>
      if env.enable_fallback then
        match processPath env document_analysis fuel (otherPath path) with
        | .ok r =>
          .ok { r with fallback_occurred := true,
                       fallback_reason := some (failMsgOf path ++ e) }
        | .error e2 => .error e2
      else .error e

/-- `ChunkingService._create_fallback_result`: the terminal `failed` outcome
(the analyzer re-run inside it never raises, so its `except` arm is dead
code). -/
def createFallbackHybridResult (env : CoordEnv) (error : PyStr) :
    HybridChunkingResult :=
  { document_analysis := analyzePdfType env.analyzerInput
    processing_path_used := .ocr_agentic
    fallback_occurred := true
    fallback_reason := some error
    parent_chunks := []
    child_chunks := []
    quality_score := 1/10
    confidence_score := 1/10
    metadata := { method := "fallback", error := some error, status := some "failed" } }

/-- `ChunkingService.process_document`: analyze, pick the effective path
(caller override wins), route with fallback, and stamp the analysis and the
chosen path onto the outcome; any escaped exception is converted into the
terminal failed outcome.  Total by construction: it never raises. -/
def processDocument (env : CoordEnv) (force_processing_path : Option ProcessingPath)
    (fuel : Nat) : HybridChunkingResult :=
  let document_analysis := analyzePdfType env.analyzerInput
  let processing_path := force_processing_path.getD document_analysis.processing_path
  match processPath env document_analysis fuel processing_path with
  | .ok r =>
    { r with document_analysis := document_analysis,
             processing_path_used := processing_path }
  | .error e => createFallbackHybridResult env e

/-! ## Theorems: document analyzer claims -/

/-- C4: for every list of page analyses, a meaningful-text fraction of 1.0
yields type `native`, the structural path, and pre-nudge confidence
`min(0.95, 0.5 + textRatio·0.5)`; a fraction of 0.0 yields type `scanned`
and the OCR-semantic path. -/
theorem C4_ratio_extremes (page_analyses : List PageAnalysis) (total_pages : Nat) :
    (textPageRatio page_analyses = 1 →
      (classifyDocument page_analyses total_pages).document_type = .native ∧
      (classifyDocument page_analyses total_pages).processing_path = .structural ∧
      (classifyCore (textPageRatio page_analyses) (ocrPageRatio page_analyses)).confidence
        = min (19/20) (1/2 + textPageRatio page_analyses * (1/2))) ∧
    (textPageRatio page_analyses = 0 →
      (classifyDocument page_analyses total_pages).document_type = .scanned ∧
      (classifyDocument page_analyses total_pages).processing_path = .ocr_agentic) := by
  have htype : (classifyDocument page_analyses total_pages).document_type
      = (classifyCore (textPageRatio page_analyses) (ocrPageRatio page_analyses)).doc_type := rfl
  have hpath : (classifyDocument page_analyses total_pages).processing_path
      = (classifyCore (textPageRatio page_analyses) (ocrPageRatio page_analyses)).path := rfl
  constructor
  · intro h1
    rw [htype, hpath, h1]
    have : nativePageThreshold ≤ (1 : ℚ) := by norm_num [nativePageThreshold]
    simp [classifyCore, this]
  · intro h0
    rw [htype, hpath, h0]
    have h1 : ¬ nativePageThreshold ≤ (0 : ℚ) := by norm_num [nativePageThreshold]
    have h2 : (0 : ℚ) ≤ mixedThreshold := by norm_num [mixedThreshold]
    simp [classifyCore, h1, h2]

/-- Witness for C4 at a one-page all-text sample and a one-page no-text
sample. -/
theorem C4_ratio_extremes_witness :
    (textPageRatio [⟨1, true, 0, 100, 1/2, false⟩] = 1 ∧
      (classifyDocument [⟨1, true, 0, 100, 1/2, false⟩] 3).document_type = .native ∧
      (classifyDocument [⟨1, true, 0, 100, 1/2, false⟩] 3).processing_path = .structural) ∧
    (textPageRatio [⟨1, false, 0, 0, 0, true⟩] = 0 ∧
      (classifyDocument [⟨1, false, 0, 0, 0, true⟩] 3).document_type = .scanned ∧
      (classifyDocument [⟨1, false, 0, 0, 0, true⟩] 3).processing_path = .ocr_agentic) := by
  have e1 : textPageRatio [⟨1, true, 0, 100, 1/2, false⟩] = 1 := by
    norm_num [textPageRatio, List.countP_cons]
  have e0 : textPageRatio [⟨1, false, 0, 0, 0, true⟩] = 0 := by
    norm_num [textPageRatio, List.countP_cons]
  have h1 := (C4_ratio_extremes [⟨1, true, 0, 100, 1/2, false⟩] 3).1 e1
  have h0 := (C4_ratio_extremes [⟨1, false, 0, 0, 0, true⟩] 3).2 e0
  exact ⟨⟨e1, h1.1, h1.2.1⟩, ⟨e0, h0.1, h0.2⟩⟩

/-- C5: the analyzer never raises (`analyzePdfType` is total); on an internal
failure it returns the fallback classification routed to the OCR-capable
path with confidence 0.3, below the 0.5 floor of normal classifications. -/
theorem C5_analyzer_failure_fallback (e : PyStr) :
    (analyzePdfType (.error e)).processing_path = .ocr_agentic ∧
    (analyzePdfType (.error e)).confidence = 3/10 ∧
    (analyzePdfType (.error e)).confidence < 1/2 := by
  refine ⟨rfl, rfl, ?_⟩
  show (3 : ℚ)/10 < 1/2
  norm_num

/-- C8: classification is deterministic — two runs of `_classify_document`
on the same page analyses and total page count produce identical
`document_type` and `processing_path` (the heuristic is a pure function of
its inputs). -/
theorem C8_classification_deterministic (page_analyses : List PageAnalysis)
    (total_pages : Nat) (r1 r2 : DocumentAnalysisResult)
    (h1 : r1 = classifyDocument page_analyses total_pages)
    (h2 : r2 = classifyDocument page_analyses total_pages) :
    r1.document_type = r2.document_type ∧ r1.processing_path = r2.processing_path := by
  subst h1; subst h2; exact ⟨rfl, rfl⟩

/-- Witness for C8 at a concrete two-page sample. -/
theorem C8_classification_deterministic_witness :
    (classifyDocument [⟨1, true, 2, 120, 1/2, false⟩, ⟨2, false, 0, 0, 0, true⟩] 4).document_type
      = (classifyDocument [⟨1, true, 2, 120, 1/2, false⟩, ⟨2, false, 0, 0, 0, true⟩] 4).document_type ∧
    (classifyDocument [⟨1, true, 2, 120, 1/2, false⟩, ⟨2, false, 0, 0, 0, true⟩] 4).processing_path
      = (classifyDocument [⟨1, true, 2, 120, 1/2, false⟩, ⟨2, false, 0, 0, 0, true⟩] 4).processing_path :=
  C8_classification_deterministic
    [⟨1, true, 2, 120, 1/2, false⟩, ⟨2, false, 0, 0, 0, true⟩] 4 _ _ rfl rfl

/-- C9: in every analysis result the analyzer produces — classification or
failure fallback — the extrapolated `pages_with_text` plus
`pages_requiring_ocr` equals `total_pages`. -/
theorem C9_page_count_invariant (input : Except PyStr (List PageAnalysis × Nat)) :
    (analyzePdfType input).pages_with_text + (analyzePdfType input).pages_requiring_ocr
      = (analyzePdfType input).total_pages := by
  match input with
  | .error e => rfl
  | .ok (page_analyses, total_pages) =>
    show (classifyDocument page_analyses total_pages).pages_with_text
        + (classifyDocument page_analyses total_pages).pages_requiring_ocr
        = (classifyDocument page_analyses total_pages).total_pages
    have hwt : (classifyDocument page_analyses total_pages).pages_with_text
        = (if page_analyses.length = 0 then 0
           else page_analyses.countP (·.has_text) * total_pages / page_analyses.length) := rfl
    have hocr : (classifyDocument page_analyses total_pages).pages_requiring_ocr
        = total_pages - (if page_analyses.length = 0 then 0
           else page_analyses.countP (·.has_text) * total_pages / page_analyses.length) := rfl
    have htp : (classifyDocument page_analyses total_pages).total_pages = total_pages := rfl
    rw [hwt, hocr, htp]
    have hle : (if page_analyses.length = 0 then 0
        else page_analyses.countP (·.has_text) * total_pages / page_analyses.length)
        ≤ total_pages := by
      by_cases h : page_analyses.length = 0
      · simp [h]
      · simp only [h, if_false]
        calc page_analyses.countP (·.has_text) * total_pages / page_analyses.length
            ≤ page_analyses.length * total_pages / page_analyses.length :=
              Nat.div_le_div_right
                (Nat.mul_le_mul_right _ (List.countP_le_length _))
          _ = total_pages := Nat.mul_div_cancel_left _ (Nat.pos_of_ne_zero h)
    omega

/-! ## Theorems: structural chunker validation (C7) -/

/-- Disjoint boolean predicates count additively. -/
theorem countP_add_countP_disjoint {α : Type} (p q : α → Bool) (l : List α)
    (h : ∀ a ∈ l, ¬(p a = true ∧ q a = true)) :
    l.countP p + l.countP q = l.countP (fun a => p a || q a) := by
  induction l with
  | nil => rfl
  | cons a rest ih =>
    have hrest : ∀ b ∈ rest, ¬(p b = true ∧ q b = true) := fun b hb =>
      h b (List.mem_cons_of_mem a hb)
    have ha := h a (List.mem_cons_self a rest)
    have ih2 := ih hrest
    simp only [List.countP_cons]
    cases hp : p a <;> cases hq : q a
    · simp [hp, hq]; omega
    · simp [hp, hq]; omega
    · simp [hp, hq]; omega
    · exact absurd ⟨hp, hq⟩ ha

/-- C7: `validate_chunks` flags the result invalid iff the parent list is
empty or strictly more than 30% of the parents have a `chunk_size` outside
`[100, 2000]` characters. -/
theorem C7_validation_iff (parent_chunks : List StructuralChunkData) :
    (validateChunks parent_chunks).valid = false ↔
      (parent_chunks = [] ∨
        3 * parent_chunks.length <
          10 * parent_chunks.countP (fun c => c.chunk_size < 100 || 2000 < c.chunk_size)) := by
  by_cases hnil : parent_chunks = []
  · simp [validateChunks, hnil]
  · have hdisj : ∀ s ∈ parent_chunks.map (·.chunk_size),
        ¬((fun s => decide (s < 100)) s = true ∧ (fun s => decide (s > 2000)) s = true) := by
      intro s _ hc
      simp only [decide_eq_true_eq] at hc
      omega
    have key : ((parent_chunks.map (·.chunk_size)).filter (fun s => s < 100)).length
        + ((parent_chunks.map (·.chunk_size)).filter (fun s => s > 2000)).length
        = parent_chunks.countP (fun c => c.chunk_size < 100 || 2000 < c.chunk_size) := by
      rw [← List.countP_eq_length_filter, ← List.countP_eq_length_filter,
        countP_add_countP_disjoint _ _ _ hdisj, List.countP_map]
      simp only [Function.comp_def, gt_iff_lt]
    have hvalid : (validateChunks parent_chunks).valid
        = !decide (10 * (((parent_chunks.map (·.chunk_size)).filter (fun s => s < 100)).length
            + ((parent_chunks.map (·.chunk_size)).filter (fun s => s > 2000)).length)
            > 3 * (parent_chunks.map (·.chunk_size)).length) := by
      simp only [validateChunks, if_neg hnil]
    rw [hvalid]
    simp only [Bool.not_eq_false', decide_eq_true_eq, List.length_map, hnil, false_or]
    rw [key]

/-! ## Theorems: combining OCR pages (C10) -/

/-- Two permuted OCR-result lists with pairwise distinct page numbers have
the same page-sorted order. -/
theorem insertionSort_eq_of_perm (l1 l2 : List OCRResult) (hperm : l1.Perm l2)
    (hd : l1.Pairwise (fun a b => a.page_number ≠ b.page_number)) :
    List.insertionSort pageLe l1 = List.insertionSort pageLe l2 := by
  have hd2 : l2.Pairwise (fun a b => a.page_number ≠ b.page_number) :=
    (hperm.pairwise_iff (fun h => h.symm)).mp hd
  have hnd1 : (List.insertionSort pageLe l1).Pairwise
      (fun a b => a.page_number ≠ b.page_number) :=
    ((List.perm_insertionSort pageLe l1).pairwise_iff (fun h => h.symm)).mpr hd
  have hnd2 : (List.insertionSort pageLe l2).Pairwise
      (fun a b => a.page_number ≠ b.page_number) :=
    ((List.perm_insertionSort pageLe l2).pairwise_iff (fun h => h.symm)).mpr hd2
  have hlt1 : (List.insertionSort pageLe l1).Pairwise pageLt :=
    ((List.sorted_insertionSort pageLe l1).and hnd1).imp
      (fun h => Nat.lt_of_le_of_ne h.1 h.2)
  have hlt2 : (List.insertionSort pageLe l2).Pairwise pageLt :=
    ((List.sorted_insertionSort pageLe l2).and hnd2).imp
      (fun h => Nat.lt_of_le_of_ne h.1 h.2)
  exact List.eq_of_perm_of_sorted
    ((List.perm_insertionSort pageLe l1).trans
      (hperm.trans (List.perm_insertionSort pageLe l2).symm))
    hlt1 hlt2

/-- C10: for OCR results with pairwise distinct page numbers,
`_combine_ocr_results` is invariant under permutation of the input list:
pages are concatenated in ascending page-number order and the separator
decision depends only on the list's length. -/
theorem C10_combine_perm_invariant (l1 l2 : List OCRResult) (hperm : l1.Perm l2)
    (hd : l1.Pairwise (fun a b => a.page_number ≠ b.page_number)) :
    combineOcrResults l1 = combineOcrResults l2 := by
  unfold combineOcrResults
  rw [insertionSort_eq_of_perm l1 l2 hperm hd, hperm.length_eq]

/-- Witness for C10 on a two-page swap. -/
theorem C10_combine_perm_invariant_witness :
    combineOcrResults
        [⟨pystr "world", 80, "en", 2, 0⟩, ⟨pystr "hello", 90, "en", 1, 0⟩]
      = combineOcrResults
        [⟨pystr "hello", 90, "en", 1, 0⟩, ⟨pystr "world", 80, "en", 2, 0⟩] :=
  C10_combine_perm_invariant _ _
    (List.Perm.swap (⟨pystr "hello", 90, "en", 1, 0⟩ : OCRResult)
      (⟨pystr "world", 80, "en", 2, 0⟩ : OCRResult) [])
    (by simp)

/-! ## Theorems: the deterministic fallback splitter (C6) -/

/-- A word produced by `str.split()`: non-empty and whitespace-free. -/
def goodWord (w : PyStr) : Prop := w ≠ [] ∧ ∀ c ∈ w, isPySpace c = false

/-- Every word `wordsAux` emits from a whitespace-free accumulator is a
`goodWord`. -/
theorem wordsAux_good : ∀ (s : PyStr) (acc : PyStr),
    (∀ c ∈ acc, isPySpace c = false) → ∀ w ∈ wordsAux s acc, goodWord w := by
  intro s
  induction s with
  | nil =>
    intro acc hacc w hw
    rw [wordsAux] at hw
    by_cases h : acc = []
    · simp [h] at hw
    · rw [if_neg h] at hw
      rw [List.mem_singleton.mp hw]
      exact ⟨by simpa using h, fun c hc => hacc c (List.mem_reverse.mp hc)⟩
  | cons c cs ih =>
    intro acc hacc w hw
    rw [wordsAux] at hw
    by_cases hsp : isPySpace c = true
    · rw [if_pos hsp] at hw
      by_cases h : acc = []
      · rw [if_pos h] at hw
        exact ih [] (by simp) w hw
      · rw [if_neg h] at hw
        rcases List.mem_cons.mp hw with h1 | h1
        · rw [h1]
          exact ⟨by simpa using h, fun d hd => hacc d (List.mem_reverse.mp hd)⟩
        · exact ih [] (by simp) w h1
    · rw [if_neg hsp] at hw
      refine ih (c :: acc) ?_ w hw
      intro d hd
      rcases List.mem_cons.mp hd with h1 | h1
      · rw [h1]; simpa using hsp
      · exact hacc d h1

/-- Every word of `pySplitWs` is non-empty and whitespace-free. -/
theorem pySplitWs_good (s : PyStr) : ∀ w ∈ pySplitWs s, goodWord w :=
  wordsAux_good s [] (by simp)

/-- `joinSpace` of a non-empty word list is non-empty. -/
theorem joinSpace_ne_nil (w : PyStr) (ws : List PyStr) (hw : w ≠ []) :
    joinSpace (w :: ws) ≠ [] := by
  cases ws with
  | nil => simpa [joinSpace] using hw
  | cons w' ws' => simp [joinSpace]

/-- The head of a space-joined list is the head of its first word. -/
theorem joinSpace_head? (w : PyStr) (ws : List PyStr) (hw : w ≠ []) :
    (joinSpace (w :: ws)).head? = w.head? := by
  cases w with
  | nil => exact absurd rfl hw
  | cons c t => cases ws <;> rfl

/-- The last character of a space-joined list of good words is not
whitespace. -/
theorem joinSpace_getLast_not_space : ∀ (ws : List PyStr), ws ≠ [] →
    (∀ w ∈ ws, goodWord w) →
    ∃ c, (joinSpace ws).getLast? = some c ∧ isPySpace c = false := by
  intro ws
  induction ws with
  | nil => intro h; exact absurd rfl h
  | cons w ws' ih =>
    intro _ hgood
    cases ws' with
    | nil =>
      have hw := hgood w (by simp)
      refine ⟨w.getLast hw.1, ?_, hw.2 _ (List.getLast_mem hw.1)⟩
      show w.getLast? = some (w.getLast hw.1)
      exact List.getLast?_eq_getLast w hw.1
    | cons w2 ws2 =>
      obtain ⟨c, hc1, hc2⟩ :=
        ih (by simp) (fun x hx => hgood x (List.mem_cons_of_mem _ hx))
      refine ⟨c, ?_, hc2⟩
      show (w ++ ' ' :: joinSpace (w2 :: ws2)).getLast? = some c
      rw [List.getLast?_append_of_ne_nil w (by simp), List.getLast?_cons, hc1]
      rfl

/-- `str.strip()` is the identity on a string whose first and last
characters are not whitespace. -/
theorem pyStrip_eq_self (l : PyStr)
    (hh : ∀ c, l.head? = some c → isPySpace c = false)
    (hl : ∀ c, l.getLast? = some c → isPySpace c = false) :
    pyStrip l = l := by
  have h1 : l.dropWhile isPySpace = l := by
    cases l with
    | nil => rfl
    | cons c t =>
      rw [List.dropWhile_cons]
      simp [hh c rfl]
  have h2 : l.reverse.dropWhile isPySpace = l.reverse := by
    cases hr : l.reverse with
    | nil => rfl
    | cons c t =>
      have hlast : l.getLast? = some c := by
        rw [← List.head?_reverse, hr]; rfl
      rw [List.dropWhile_cons]
      simp [hl c hlast]
  unfold pyStrip
  rw [h1, h2, List.reverse_reverse]

/-- Stripping a space-join of good words changes nothing. -/
theorem pyStrip_joinSpace (ws : List PyStr) (hne : ws ≠ [])
    (hgood : ∀ w ∈ ws, goodWord w) :
    pyStrip (joinSpace ws) = joinSpace ws := by
  obtain ⟨w, ws', rfl⟩ := List.exists_cons_of_ne_nil hne
  have hw := hgood w (by simp)
  apply pyStrip_eq_self
  · intro c hc
    rw [joinSpace_head? w ws' hw.1] at hc
    exact hw.2 c (List.mem_of_mem_head? hc)
  · intro c hc
    obtain ⟨c', h1, h2⟩ := joinSpace_getLast_not_space (w :: ws') (by simp) hgood
    rw [h1] at hc
    rw [← Option.some.inj hc]
    exact h2

/-- Invariant of the word-accumulation loop: flushed chunks carry at least
100 characters with confidence 0.6, and the leftover words stay good. -/
theorem fallbackLoop_invariant : ∀ (ws cur : List PyStr) (chunks : List AgParentChunk),
    (∀ w ∈ ws, goodWord w) → (∀ w ∈ cur, goodWord w) →
    (∀ p ∈ chunks, 100 ≤ p.content.length ∧ p.confidence_score = 3/5) →
    (∀ p ∈ (fallbackLoop ws cur chunks).1,
        100 ≤ p.content.length ∧ p.confidence_score = 3/5) ∧
    (∀ w ∈ (fallbackLoop ws cur chunks).2, goodWord w) := by
  intro ws
  induction ws with
  | nil =>
    intro cur chunks _ hcur hch
    exact ⟨hch, hcur⟩
  | cons w ws' ih =>
    intro cur chunks hws hcur hch
    have hw : goodWord w := hws w (by simp)
    have hws' : ∀ x ∈ ws', goodWord x := fun x hx => hws x (List.mem_cons_of_mem _ hx)
    have hcur' : ∀ x ∈ cur ++ [w], goodWord x := by
      intro x hx
      rcases List.mem_append.mp hx with h | h
      · exact hcur x h
      · rw [List.mem_singleton.mp h]; exact hw
    rw [fallbackLoop]
    split
    case isTrue hcond =>
      refine ih [] _ hws' (by simp) ?_
      intro p hp
      rcases List.mem_append.mp hp with h | h
      · exact hch p h
      · rw [List.mem_singleton.mp h]
        refine ⟨?_, rfl⟩
        show 100 ≤ (pyStrip (joinSpace (cur ++ [w]))).length
        rw [pyStrip_joinSpace (cur ++ [w]) (by simp) hcur']
        exact hcond.2
    case isFalse =>
      exact ih (cur ++ [w]) chunks hws' hcur' hch

/-- C6 (amended): every parent chunk the deterministic fallback splitter
produces has content of at least 50 characters (flushed chunks at least
100; only the final leftover chunk may go down to 50) with confidence in
[0.5, 0.6], and whenever the input contains at least one word the result's
metadata records status `fallback`. -/
theorem C6_fallback_splitter (text : PyStr) :
    (∀ p ∈ (createSimpleFallbackChunks text).parent_chunks,
        50 ≤ p.content.length ∧ 1/2 ≤ p.confidence_score ∧ p.confidence_score ≤ 3/5) ∧
    (pySplitWs text ≠ [] →
      (createSimpleFallbackChunks text).processing_metadata.status = some "fallback") := by
  by_cases hw : pySplitWs text = []
  · constructor
    · intro p hp
      simp only [createSimpleFallbackChunks, hw, if_pos rfl] at hp
      simp [createEmptyResult] at hp
    · intro h
      exact absurd hw h
  · have hinv := fallbackLoop_invariant (pySplitWs text) [] [] (pySplitWs_good text)
      (by simp) (by simp)
    have hbody : createSimpleFallbackChunks text =
        { parent_chunks :=
            if (fallbackLoop (pySplitWs text) [] []).2 ≠ [] ∧
                50 ≤ (pyStrip (joinSpace (fallbackLoop (pySplitWs text) [] []).2)).length
            then (fallbackLoop (pySplitWs text) [] []).1
              ++ [fallbackFinalChunk
                    (pyStrip (joinSpace (fallbackLoop (pySplitWs text) [] []).2))]
            else (fallbackLoop (pySplitWs text) [] []).1
          processing_metadata :=
            { status := some "fallback", method := some "simple_splitting" } } := by
      simp only [createSimpleFallbackChunks, hw, if_neg hw]
      simp
    rw [hbody]
    constructor
    · intro p hp
      simp only at hp
      by_cases hc : (fallbackLoop (pySplitWs text) [] []).2 ≠ [] ∧
          50 ≤ (pyStrip (joinSpace (fallbackLoop (pySplitWs text) [] []).2)).length
      · rw [if_pos hc] at hp
        rcases List.mem_append.mp hp with h | h
        · have := hinv.1 p h
          refine ⟨by omega, ?_, ?_⟩ <;> rw [this.2] <;> norm_num
        · rw [List.mem_singleton.mp h]
          refine ⟨hc.2, ?_, ?_⟩ <;> norm_num [fallbackFinalChunk]
      · rw [if_neg hc] at hp
        have := hinv.1 p hp
        refine ⟨by omega, ?_, ?_⟩ <;> rw [this.2] <;> norm_num
    · intro _
      rfl

/-- C6 counterexample: on a 58-character one-sentence input without a
period, the splitter emits a single parent chunk of 58 characters (below
the claimed 100 minimum), and on empty input the recorded status is
`empty`, not `fallback`. -/
theorem C6_counterexample :
    ((createSimpleFallbackChunks
        (pystr "this simple fallback text has fewer than one hundred chars")).parent_chunks.map
      (fun p => p.content.length)) = [58] ∧
    (58 < 100) ∧
    (createSimpleFallbackChunks (pystr "")).processing_metadata.status = some "empty" := by
  refine ⟨?_, by omega, rfl⟩
  decide

/-- Witness for C6 on a concrete two-sentence input. -/
theorem C6_fallback_splitter_witness :
    pySplitWs (pystr "one tiny text.") ≠ [] ∧
    (createSimpleFallbackChunks (pystr "one tiny text.")).processing_metadata.status
      = some "fallback" :=
  ⟨by decide, (C6_fallback_splitter (pystr "one tiny text.")).2 (by decide)⟩

/-! ## Theorems: coordinator claims (C1, C2, C3) -/

/-- Neither arm of the structural path's `try` returns: the chunker's
exception, the conversion `IndexError`, or the construction
`ValidationError` always propagates. -/
theorem structuralPathCore_isOk_false (env : CoordEnv)
    (document_analysis : DocumentAnalysisResult) :
    (structuralPathCore env document_analysis).isOk = false := by
  unfold structuralPathCore
  cases env.structuralResult with
  | error e => rfl
  | ok sr =>
    dsimp only
    split <;> rfl

/-- Neither arm of the OCR+agentic path's `try` returns either. -/
theorem ocrAgenticPathCore_isOk_false (env : CoordEnv)
    (document_analysis : DocumentAnalysisResult) :
    (ocrAgenticPathCore env document_analysis).isOk = false := by
  unfold ocrAgenticPathCore
  cases env.ocrResult with
  | error e => rfl
  | ok ocr_results => cases ocr_results <;> rfl

/-- No path attempt ever returns a successful outcome. -/
theorem pathCore_isOk_false (path : ProcessingPath) (env : CoordEnv)
    (document_analysis : DocumentAnalysisResult) :
    (pathCore path env document_analysis).isOk = false := by
  cases path
  · exact structuralPathCore_isOk_false env document_analysis
  · exact ocrAgenticPathCore_isOk_false env document_analysis

/-- Each path attempt fails with some error. -/
theorem pathCore_error (path : ProcessingPath) (env : CoordEnv)
    (document_analysis : DocumentAnalysisResult) :
    ∃ e, pathCore path env document_analysis = .error e := by
  have h := pathCore_isOk_false path env document_analysis
  cases hq : pathCore path env document_analysis with
  | error e => exact ⟨e, rfl⟩
  | ok r =>
    rw [hq] at h
    exact absurd h (by simp [Except.isOk, Except.toBool])

/-- With fallback enabled, the mutual path recursion always exhausts its
fuel (the interpreter stack) and fails with the `RecursionError`. -/
theorem processPath_error (env : CoordEnv) (document_analysis : DocumentAnalysisResult)
    (hfb : env.enable_fallback = true) :
    ∀ (fuel : Nat) (path : ProcessingPath),
      processPath env document_analysis fuel path = .error recursionErrorMsg := by
  intro fuel
  induction fuel with
  | zero => intro path; rfl
  | succ n ih =>
    intro path
    obtain ⟨e, he⟩ := pathCore_error path env document_analysis
    rw [processPath, he]
    simp only [hfb, if_true]
    rw [ih (otherPath path)]

/-- C3: the claim quantifies over successful runs of either path, and no
such run exists — each path's outcome construction raises
`ValidationError` — so the claim holds vacuously.  Stated directly: both
path attempts always fail, and every successful outcome (in `toOption`
form; there are none) satisfies
`confidence_score = min(classification confidence, quality_score)`. -/
theorem C3_confidence_min_vacuous (env : CoordEnv) :
    (structuralPathCore env (analyzePdfType env.analyzerInput)).isOk = false ∧
    (ocrAgenticPathCore env (analyzePdfType env.analyzerInput)).isOk = false ∧
    ((structuralPathCore env (analyzePdfType env.analyzerInput)).toOption.all
      (fun r => decide (r.confidence_score
        = min (analyzePdfType env.analyzerInput).confidence r.quality_score))) = true ∧
    ((ocrAgenticPathCore env (analyzePdfType env.analyzerInput)).toOption.all
      (fun r => decide (r.confidence_score
        = min (analyzePdfType env.analyzerInput).confidence r.quality_score))) = true := by
  refine ⟨structuralPathCore_isOk_false env _, ocrAgenticPathCore_isOk_false env _, ?_, ?_⟩
  · cases hq : structuralPathCore env (analyzePdfType env.analyzerInput) with
    | error e => rfl
    | ok r =>
      have h := structuralPathCore_isOk_false env (analyzePdfType env.analyzerInput)
      rw [hq] at h
      exact absurd h (by simp [Except.isOk, Except.toBool])
  · cases hq : ocrAgenticPathCore env (analyzePdfType env.analyzerInput) with
    | error e => rfl
    | ok r =>
      have h := ocrAgenticPathCore_isOk_false env (analyzePdfType env.analyzerInput)
      rw [hq] at h
      exact absurd h (by simp [Except.isOk, Except.toBool])

/-- C1: whenever the effective path raises with fallback enabled, the
returned outcome has `fallback_occurred=true` and a non-empty
`fallback_reason` (the `RecursionError` message recorded by
`_create_fallback_result`); its chunk collections are empty, which the
claim's "unless the fallback path also fails" clause permits, because the
fallback path always fails as well — even a successful chunker run raises
`ValidationError` constructing the outcome. -/
theorem C1_fallback_guarantee (env : CoordEnv) (p : ProcessingPath) (fuel : Nat)
    (e : PyStr) (hfb : env.enable_fallback = true)
    (_hfail : pathCore p env (analyzePdfType env.analyzerInput) = .error e) :
    (processDocument env (some p) fuel).fallback_occurred = true ∧
    (processDocument env (some p) fuel).fallback_reason = some recursionErrorMsg ∧
    recursionErrorMsg ≠ [] ∧
    ((pathCore (otherPath p) env (analyzePdfType env.analyzerInput)).isOk = false ∨
      ((processDocument env (some p) fuel).parent_chunks ≠ [] ∧
        (processDocument env (some p) fuel).child_chunks ≠ [])) := by
  have hpd : processDocument env (some p) fuel
      = createFallbackHybridResult env recursionErrorMsg := by
    unfold processDocument
    dsimp only
    simp only [Option.getD_some]
    rw [processPath_error env (analyzePdfType env.analyzerInput) hfb fuel p]
  rw [hpd]
  exact ⟨rfl, rfl, by decide,
    Or.inl (pathCore_isOk_false (otherPath p) env (analyzePdfType env.analyzerInput))⟩

/-- Environment for the C1 witness: the structural chunker raises; the OCR
engine and the agent would succeed, yet the fallback path still fails at
the outcome construction. -/
def envC1 : CoordEnv :=
  { analyzerInput := .ok ([], 1)
    structuralResult := .error (pystr "PDF structure extraction failed")
    ocrResult := .ok [⟨pystr "Scanned page text body.", 85, "en", 1, 0⟩]
    agentOutcome := .ok { parent_chunks := [] } }

/-- Witness for C1 at the concrete environment. -/
theorem C1_fallback_guarantee_witness :
    (processDocument envC1 (some .structural) 5).fallback_occurred = true ∧
    (processDocument envC1 (some .structural) 5).fallback_reason
      = some recursionErrorMsg := by
  have h := C1_fallback_guarantee envC1 .structural 5
    (pystr "PDF structure extraction failed") rfl rfl
  exact ⟨h.1, h.2.1⟩

/-- C2: `process_document` is total (never raises), and when both processing
paths fail it returns the terminal failed outcome: empty chunk collections,
quality score 0.1, and the triggering error recorded in the metadata with
status `failed`. -/
theorem C2_total_failure (env : CoordEnv) (force : Option ProcessingPath) (fuel : Nat)
    (hs : ∃ e, structuralPathCore env (analyzePdfType env.analyzerInput) = .error e)
    (ho : ∃ e, ocrAgenticPathCore env (analyzePdfType env.analyzerInput) = .error e) :
    (processDocument env force fuel).parent_chunks = [] ∧
    (processDocument env force fuel).child_chunks = [] ∧
    (processDocument env force fuel).quality_score = 1/10 ∧
    (processDocument env force fuel).metadata.method = "fallback" ∧
    (processDocument env force fuel).metadata.status = some "failed" ∧
    (processDocument env force fuel).metadata.error.isSome = true := by
  have hcore : ∀ q, ∃ e, pathCore q env (analyzePdfType env.analyzerInput) = .error e := by
    intro q
    cases q
    · exact hs
    · exact ho
  have key : ∀ (f : Nat) (q : ProcessingPath),
      ∃ e, processPath env (analyzePdfType env.analyzerInput) f q = .error e := by
    intro f
    induction f with
    | zero => intro q; exact ⟨recursionErrorMsg, rfl⟩
    | succ n ih =>
      intro q
      obtain ⟨e, he⟩ := hcore q
      obtain ⟨e2, h2⟩ := ih (otherPath q)
      rw [processPath, he]
      by_cases hf : env.enable_fallback
      · simp only [hf, if_true]
        rw [h2]
        exact ⟨e2, rfl⟩
      · simp only [hf, if_false]
        exact ⟨e, rfl⟩
  obtain ⟨e, he⟩ := key fuel (force.getD (analyzePdfType env.analyzerInput).processing_path)
  have hpd : processDocument env force fuel = createFallbackHybridResult env e := by
    unfold processDocument
    dsimp only
    rw [he]
  rw [hpd]
  exact ⟨rfl, rfl, rfl, rfl, rfl, rfl⟩

/-- Environment for the C2 witness: both paths raise. -/
def envC2 : CoordEnv :=
  { analyzerInput := .ok ([], 1)
    structuralResult := .error (pystr "structural boom")
    ocrResult := .error (pystr "ocr boom")
    agentOutcome := .error (pystr "agent boom") }

/-- Witness for C2 at the concrete both-paths-fail environment. -/
theorem C2_total_failure_witness :
    (processDocument envC2 none 3).parent_chunks = [] ∧
    (processDocument envC2 none 3).quality_score = 1/10 ∧
    (processDocument envC2 none 3).metadata.status = some "failed" := by
  have h := C2_total_failure envC2 none 3 ⟨pystr "structural boom", rfl⟩
    ⟨pystr "ocr boom", rfl⟩
  exact ⟨h.1, h.2.2.1, h.2.2.2.2.1⟩
